import Mathlib

/-
Verification of the scan-orchestration core of bedrock-web-optical-scanner
(src/lib/opticalScanner.js), as a shallow embedding.

Modelling conventions:
- Detection payloads are an arbitrary type alpha; a plugin invocation is
  modelled by the value it eventually settles with together with its
  settlement time (a natural number).  Single-threaded cooperative
  scheduling is modelled by processing settlement events in order of
  settlement time, ties broken by request order (stable insertion),
  which matches promise-handler delivery order in the source.
- An abort signal is modelled by the (unique, irreversible) abort event it
  will ever fire: an optional pair of the abort time and the abort reason.
  A signal that is absent and a signal that never triggers behave
  identically everywhere in the source, so both are modelled as none.
  Time 0 means the signal is already aborted when scan starts
  (synchronously observable by throwIfAborted).
- JavaScript errors and DOMExceptions are modelled by their observable
  fields: name, message and the optional code property.
-/

namespace OpticalScanner

/-- Model of a JavaScript Error or DOMException: the fields the scanner
code observes (name, message, optional code property). -/
structure JsError where
  name : String := "Error"
  message : String
  code : Option String := none
deriving DecidableEq, Repr

/-- Reason installed by AbortSignal.timeout(ms): a DOMException named
TimeoutError (it carries no string code property). -/
def timeoutReason : JsError :=
  {name := "TimeoutError", message := "The operation timed out."}

/-- Default reason of AbortController.abort() with no argument: a
DOMException named AbortError. -/
def domAbortError : JsError :=
  {name := "AbortError", message := "The operation was aborted."}

/-- An abort event: the time at which a signal aborts, and its reason.
A signal is modelled by the optional abort event it will ever fire. -/
abbrev AbortEvt := Nat × JsError

/-- Model of _combineSignals (opticalScanner.js lines 695-716): combine a
user signal with AbortSignal.timeout(timeoutMs) via AbortSignal.any.
Returns none when there is neither a user signal nor a positive timeout.
The earliest abort wins; on a tie the user signal (listed first) wins. -/
def combineSignals (userSignal : Option AbortEvt) (timeoutMs : Nat) :
    Option AbortEvt :=
  match userSignal with
  | none => if timeoutMs = 0 then none else some (timeoutMs, timeoutReason)
  | some u =>
    if timeoutMs = 0 then some u
    else if u.1 ≤ timeoutMs then some u else some (timeoutMs, timeoutReason)

/-- Error thrown by the timer inside _createTimeoutController
(opticalScanner.js lines 765-767): new Error("SCAN_TIMEOUT") with the
code property set to "SCAN_TIMEOUT". -/
def scanTimeoutError : JsError :=
  {message := "SCAN_TIMEOUT", code := some "SCAN_TIMEOUT"}

/-- Model of _createTimeoutController (opticalScanner.js lines 728-773):
a helper that combines an existing signal with a setTimeout-based timer
whose reason carries code SCAN_TIMEOUT.  The scan method itself does not
call it; it uses _combineSignals instead.  Returns the abort event of the
resulting controller signal. -/
def createTimeoutController (existingSignal : Option AbortEvt)
    (timeoutMs : Nat) : Option AbortEvt :=
  match existingSignal with
  | none => if timeoutMs = 0 then none else some (timeoutMs, scanTimeoutError)
  | some u =>
    if timeoutMs = 0 then some u
    else if u.1 ≤ timeoutMs then some u else some (timeoutMs, scanTimeoutError)

/-- JavaScript Map lookup by key (Map.prototype.get). -/
def mapGet {β : Type} (m : List (String × β)) (k : String) : Option β :=
  (m.find? (fun p => p.1 == k)).map Prod.snd

/-- JavaScript Map key test (Map.prototype.has). -/
def mapHas {β : Type} (m : List (String × β)) (k : String) : Bool :=
  m.any (fun p => p.1 == k)

/-- JavaScript Map insertion (Map.prototype.set): overwrites in place,
keeping the original insertion position of an existing key. -/
def mapSet {β : Type} (m : List (String × β)) (k : String) (v : β) :
    List (String × β) :=
  if m.any (fun p => p.1 == k) then
    m.map (fun p => if p.1 == k then (k, v) else p)
  else m ++ [(k, v)]

variable {α : Type}

/-- Decidable equality for Except, needed to evaluate concrete instances
of the model. -/
instance {ε β : Type} [DecidableEq ε] [DecidableEq β] :
    DecidableEq (Except ε β) := fun x y =>
  match x, y with
  | .ok a, .ok b =>
    if h : a = b then isTrue (by rw [h]) else isFalse (by simp [h])
  | .error a, .error b =>
    if h : a = b then isTrue (by rw [h]) else isFalse (by simp [h])
  | .ok _, .error _ => isFalse (by simp)
  | .error _, .ok _ => isFalse (by simp)

/-- One plugin invocation for a given scan call: the value the promise
returned by plugin.scan settles with (fulfilled with a list of detections
or rejected with an error message), and its settlement time. -/
structure PluginRun (α : Type) where
  time : Nat
  result : Except String (List α)
deriving DecidableEq, Repr

/-- Plugin registry of one scanner instance: a JavaScript Map from format
string to plugin (here: to the behaviour of that plugin for this call). -/
abbrev Registry (α : Type) := List (String × PluginRun α)

/-- Model of getSupportedFormats (opticalScanner.js lines 540-542). -/
def getSupportedFormats (registry : Registry α) : List String :=
  registry.map Prod.fst

/-- Wrapped settlement value built in scan (opticalScanner.js lines
96-105): on fulfilment, success is true exactly when the data list is
non-empty; on rejection, success is false and the error message is kept. -/
structure ScanOutcome (α : Type) where
  format : String
  success : Bool
  data : List α := []
  error : Option String := none
deriving DecidableEq, Repr

/-- Build a ScanOutcome from a settled plugin result, exactly as the
then/catch pair in scan does. -/
def wrapOutcome (format : String) (result : Except String (List α)) :
    ScanOutcome α :=
  match result with
  | .ok data => {format := format, success := !data.isEmpty, data := data}
  | .error e => {format := format, success := false, error := some e}

/-- Result of one single-shot scan call: fulfilment with the outcome list,
rejection with an error, or a promise that never settles. -/
inductive ScanResult (α : Type) where
  | ok (outcomes : List (ScanOutcome α))
  | error (e : JsError)
  | pending
deriving DecidableEq, Repr

/-- Error thrown for requested formats absent from the registry
(opticalScanner.js line 70); it names every missing format. -/
def unsupportedFormatsError (missing : List String) : JsError :=
  {message := "Unsupported formats: " ++ String.intercalate ", " missing}

/-- Error used by _waitForFirst when every plugin settled without data
(opticalScanner.js line 597). -/
def noResultsError : JsError :=
  {message := "No results found from any plugin"}

/-- Error thrown at the mode switch for an invalid mode value
(opticalScanner.js line 133). -/
def unknownModeError (mode : String) : JsError :=
  {message := "Unknown mode: " ++ mode}

/-- Insert a settlement after every earlier-or-equal settlement time:
one step of building the stable settlement order. -/
def insertSettle (l : List (Nat × ScanOutcome α)) (x : Nat × ScanOutcome α) :
    List (Nat × ScanOutcome α) :=
  match l with
  | [] => [x]
  | y :: ys => if y.1 ≤ x.1 then y :: insertSettle ys x else x :: y :: ys

/-- Settlement order of the wrapped plugin promises: sorted by settlement
time, stable (equal times keep request order), which is the order in which
the then-handlers attached by _waitForFirst fire. -/
def settleOrder (outs : List (Nat × ScanOutcome α)) :
    List (Nat × ScanOutcome α) :=
  outs.foldl insertSettle []

/-- An event observed by the first-mode waiter: a promise settling with a
wrapped outcome, or the abort listener firing with the signal reason. -/
inductive ScanEvent (α : Type) where
  | settle (o : ScanOutcome α)
  | abort (reason : JsError)
deriving DecidableEq, Repr

/-- Merge the abort event of the signal into the settlement order: the
abort listener fires before every settlement that is strictly later. -/
def mergeAbort (abortEvt : Option AbortEvt) :
    List (Nat × ScanOutcome α) → List (ScanEvent α)
  | [] =>
    match abortEvt with
    | some (_, r) => [.abort r]
    | none => []
  | (t, o) :: rest =>
    match abortEvt with
    | some (ta, r) =>
      if ta < t then
        .abort r :: ((t, o) :: rest).map (fun p => ScanEvent.settle p.2)
      else .settle o :: mergeAbort (some (ta, r)) rest
    | none => .settle o :: ((rest).map (fun p => ScanEvent.settle p.2))

/-- Faithful state machine of _waitForFirst (opticalScanner.js lines
589-628): resolve with a one-element list at the first settlement whose
outcome has success true; count other settlements and reject with
noResultsError when the count reaches the total; the abort listener
rejects with the signal reason; with no further events the promise stays
pending. -/
def runFirstWaiter (total : Nat) :
    List (ScanEvent α) → Nat → ScanResult α
  | [], _ => .pending
  | .abort r :: _, _ => .error r
  | .settle o :: rest, completed =>
    if o.success then .ok [o]
    else if completed + 1 = total then .error noResultsError
    else runFirstWaiter total rest (completed + 1)

/-- Model of _waitForFirst: run the first-mode waiter over the settlement
order of the promises merged with the abort event of the signal. -/
def waitForFirst (outs : List (Nat × ScanOutcome α))
    (signal : Option AbortEvt) : ScanResult α :=
  runFirstWaiter outs.length (mergeAbort signal (settleOrder outs)) 0

/-- First settlement (of a list given in settlement order) whose outcome
has success true, if any. -/
def findFirstSuccess (es : List (Nat × ScanOutcome α)) :
    Option (ScanOutcome α) :=
  (es.find? (fun p => p.2.success)).map Prod.snd

/-- Time at which Promise.allSettled over the wrapped promises resolves:
the latest settlement time (0 for an empty list). -/
def maxSettleTime (outs : List (Nat × ScanOutcome α)) : Nat :=
  outs.foldl (fun acc p => max acc p.1) 0

/-- Model of _waitForAll (opticalScanner.js lines 645-665): throw the
signal reason if the signal aborted before Promise.allSettled resolved
(which covers the initial throwIfAborted), otherwise keep the fulfilled
outcomes with success true, in the input (request) order that
Promise.allSettled preserves. -/
def waitForAll (outs : List (Nat × ScanOutcome α))
    (signal : Option AbortEvt) : ScanResult α :=
  match signal with
  | some (ta, r) =>
    if ta ≤ maxSettleTime outs then .error r
    else .ok ((outs.map Prod.snd).filter (fun o => o.success))
  | none => .ok ((outs.map Prod.snd).filter (fun o => o.success))

/-- Model of _waitExhaustive (opticalScanner.js lines 680-683): delegates
to _waitForAll unchanged. -/
def waitExhaustive (outs : List (Nat × ScanOutcome α))
    (signal : Option AbortEvt) : ScanResult α :=
  waitForAll outs signal

/-- Default format list of scan (opticalScanner.js line 56). -/
def defaultFormats : List String :=
  ["qr_code", "pdf417", "pdf417_enhanced", "mrz"]

/-- The wrapped plugin promises scan builds in its for-loop (lines
79-122), in request order: for each requested format, the settlement time
of the plugin and the wrapped outcome of its settled value. -/
def scanRuns (registry : Registry α) (formats : List String) :
    List (Nat × ScanOutcome α) :=
  formats.filterMap (fun f =>
    (mapGet registry f).map (fun p => (p.time, wrapOutcome f p.result)))

/-- Body of scan after option defaulting and signal combination
(opticalScanner.js lines 66-134).  Returns the scan result together with
the list of formats whose plugins were invoked before the call settled
(empty for the two early validation throws, the full request list
otherwise, because the plugin-invocation loop runs before the mode
switch). -/
def scanCore (registry : Registry α) (formats : List String) (mode : String)
    (signal : Option AbortEvt) : ScanResult α × List String :=
  let unsupported := formats.filter (fun f => !mapHas registry f)
  if unsupported ≠ [] then
    (.error (unsupportedFormatsError unsupported), [])
  else if signal.any (fun a => a.1 == 0) then
    (.error ((signal.map Prod.snd).getD domAbortError), [])
  else
    let outs := scanRuns registry formats
    if mode = "first" then (waitForFirst outs signal, formats)
    else if mode = "all" then (waitForAll outs signal, formats)
    else if mode = "exhaustive" then (waitExhaustive outs signal, formats)
    else (.error (unknownModeError mode), formats)

/-- Model of scan (opticalScanner.js lines 54-135): apply the option
defaults (formats defaults to defaultFormats, mode to "first", timeoutMs
to 0 at the call sites), combine the user signal with the timeout, and
run the scan body. -/
def scan (registry : Registry α) (formats : Option (List String))
    (mode : Option String) (userSignal : Option AbortEvt)
    (timeoutMs : Nat) : ScanResult α × List String :=
  let fs := formats.getD defaultFormats
  let m := mode.getD "first"
  let signal := (combineSignals userSignal timeoutMs).orElse
    (fun _ => userSignal)
  scanCore registry fs m signal

/-- Model of scanAny (opticalScanner.js lines 520-533): scan with the
registered formats and mode "first". -/
def scanAny (registry : Registry α) (userSignal : Option AbortEvt)
    (timeoutMs : Nat) : ScanResult α × List String :=
  scan registry (some (getSupportedFormats registry)) (some "first")
    userSignal timeoutMs

/-- Observable state of an AbortSignal at one point in time: the aborted
flag and the reason property (undefined until the signal aborts). -/
structure SignalState where
  aborted : Bool
  reason : Option JsError
deriving DecidableEq, Repr

/-- The never-aborted signal state; also models an absent signal, since
signal?.aborted and signal?.reason observe undefined the same way. -/
def signalIdle : SignalState :=
  {aborted := false, reason := none}

/-- Model of _isTimeoutError (opticalScanner.js lines 554-559): the error
is named TimeoutError, or it is named AbortError while the signal reason
is named TimeoutError. -/
def isTimeoutError (e : JsError) (signal : SignalState) : Bool :=
  e.name == "TimeoutError" ||
    (e.name == "AbortError" &&
      ((signal.reason.map JsError.name).getD "" == "TimeoutError"))

/-- Context argument of _createScanError (opticalScanner.js lines
789-796). -/
structure ScanErrorContext where
  frameCount : Option Nat := none
  attemptCount : Option Nat := none
  scanMethod : String := "unknown"
  reason : Option String := none
  customMessage : Option String := none
deriving DecidableEq, Repr

/-- Enriched error produced by _createScanError (opticalScanner.js lines
812-820). -/
structure EnrichedError where
  message : String
  code : String
  scanMethod : String
  frameCount : Option Nat
  attemptCount : Option Nat
  reason : Option String
  originalError : JsError
deriving DecidableEq, Repr

/-- Model of _createScanError (opticalScanner.js lines 789-821): build the
message from the custom message or the original one, append frame count,
attempt count and reason when present, and copy the context fields; the
code falls back to SCAN_ERROR when the original error has none. -/
def createScanError (originalError : JsError)
    (context : ScanErrorContext) : EnrichedError :=
  let m0 := context.customMessage.getD originalError.message
  let m1 := match context.frameCount with
    | some n => m0 ++ " after " ++ toString n ++ " frames"
    | none => m0
  let m2 := match context.attemptCount with
    | some n => m1 ++ " after " ++ toString n ++ " attempts"
    | none => m1
  let m3 := match context.reason with
    | some r => m2 ++ " (" ++ r ++ ")"
    | none => m2
  { message := m3
    code := originalError.code.getD "SCAN_ERROR"
    scanMethod := context.scanMethod
    frameCount := context.frameCount
    attemptCount := context.attemptCount
    reason := context.reason
    originalError := originalError }

/-- One iteration of a continuous-scan loop, as observed by the loop body:
the signal state at the check that opens the iteration, the settled value
of the inner single-shot scan, and the signal state when the catch handler
runs (the signal can abort while the inner scan is in flight). -/
structure ContinuousStep (α : Type) where
  startState : SignalState
  scanOutcome : Except JsError (List (ScanOutcome α))
  catchState : SignalState
deriving DecidableEq, Repr

/-- Result of running a continuous-scan loop over a finite list of
modelled iterations: resolution with the found outcomes, rejection with
an enriched error, or a loop that is still running (scheduling further
iterations) after the given number of iterations. -/
inductive LoopResult (α : Type) where
  | resolved (results : List (ScanOutcome α))
  | rejected (e : EnrichedError)
  | running (count : Nat)
deriving DecidableEq, Repr

/-- Cancellation error built when the polling while-condition observes an
aborted signal (opticalScanner.js lines 497-505): an enriched error with
the attempt count and the polling strategy, no reason field, and the code
overwritten with SCAN_CANCELLED. -/
def pollAbortExit (attempt : Nat) : EnrichedError :=
  let e := createScanError
    {message := "Continuous polling scan was cancelled."}
    {attemptCount := some attempt, scanMethod := "polling"}
  {e with code := "SCAN_CANCELLED"}

/-- Faithful loop of _scanContinuousPolling (opticalScanner.js lines
423-506).  The while head re-checks the signal; inside the try, a
non-empty result resolves, an empty one retries after the fixed delay; in
the catch, an AbortError-named error or an aborted signal rejects with an
enriched error whose reason is classified by _isTimeoutError, and any
other error retries.  finalState is the signal state at the first while
check beyond the modelled iterations. -/
def scanContinuousPollingLoop (finalState : SignalState) :
    List (ContinuousStep α) → Nat → LoopResult α
  | [], attempt =>
    if finalState.aborted then .rejected (pollAbortExit attempt)
    else .running attempt
  | s :: rest, attempt =>
    if s.startState.aborted then .rejected (pollAbortExit attempt)
    else
      match s.scanOutcome with
      | .ok results =>
        if results.isEmpty then
          scanContinuousPollingLoop finalState rest (attempt + 1)
        else .resolved results
      | .error e =>
        if e.name == "AbortError" || s.catchState.aborted then
          .rejected (createScanError e
            { customMessage := some "Continuous polling scan aborted"
              attemptCount := some (attempt + 1)
              reason := some (if isTimeoutError e s.catchState then "timeout"
                else "user cancellation")
              scanMethod := "polling" })
        else scanContinuousPollingLoop finalState rest (attempt + 1)

/-- Model of _scanContinuousPolling: run the polling loop from attempt
count 0. -/
def scanContinuousPolling (steps : List (ContinuousStep α))
    (finalState : SignalState) : LoopResult α :=
  scanContinuousPollingLoop finalState steps 0

/-- Faithful loop of the scanFrame callback in
_scanContinuousFrameCallback (opticalScanner.js lines 295-391).  The try
begins with throwIfAborted (before the frame counter increments), whose
throw lands in the catch with the signal already aborted; a non-empty
inner-scan result resolves; an empty one schedules the next frame; in the
catch, an AbortError-named error or an aborted signal rejects with an
enriched error whose reason is classified by _isTimeoutError, and any
other error schedules the next frame. -/
def scanContinuousFrameLoop :
    List (ContinuousStep α) → Nat → LoopResult α
  | [], frameCount => .running frameCount
  | s :: rest, frameCount =>
    if s.startState.aborted then
      let e := s.startState.reason.getD domAbortError
      .rejected (createScanError e
        { customMessage := some "Continuous scan aborted"
          frameCount := some frameCount
          reason := some (if isTimeoutError e s.startState then "timeout"
            else "user cancellation")
          scanMethod := "frame-callback" })
    else
      match s.scanOutcome with
      | .ok results =>
        if results.isEmpty then scanContinuousFrameLoop rest (frameCount + 1)
        else .resolved results
      | .error e =>
        if e.name == "AbortError" || s.catchState.aborted then
          .rejected (createScanError e
            { customMessage := some "Continuous scan aborted"
              frameCount := some (frameCount + 1)
              reason := some (if isTimeoutError e s.catchState then "timeout"
                else "user cancellation")
              scanMethod := "frame-callback" })
        else scanContinuousFrameLoop rest (frameCount + 1)

/-- Model of _scanContinuousFrameCallback as a loop: run the frame loop
from frame count 0. -/
def scanContinuousFrame (steps : List (ContinuousStep α)) : LoopResult α :=
  scanContinuousFrameLoop steps 0

/-- Options passed to a continuous-scan call (opticalScanner.js lines
268-275): formats, mode and the user signal are forwarded without
defaults, timeoutMs defaults to 0. -/
structure ContinuousOptions where
  formats : Option (List String) := none
  mode : Option String := none
  userSignal : Option AbortEvt := none
  timeoutMs : Nat := 0
deriving DecidableEq, Repr

/-- Arguments of one single-shot scan call, as a record. -/
structure ScanArgs where
  formats : Option (List String)
  mode : Option String
  signal : Option AbortEvt
  timeoutMs : Nat
deriving DecidableEq, Repr

/-- Effective signal computed at the top of both continuous strategies
(opticalScanner.js lines 286 and 433): _combineSignals of the user signal
and the timeout, falling back to the user signal. -/
def continuousEffectiveSignal (opts : ContinuousOptions) :
    Option AbortEvt :=
  (combineSignals opts.userSignal opts.timeoutMs).orElse
    (fun _ => opts.userSignal)

/-- Arguments of the per-frame single-shot scan dispatched by
_scanContinuousFrameCallback (opticalScanner.js lines 318-325): formats
and mode are forwarded from the caller options, the signal is the outer
effective signal, and timeoutMs is fixed to 0. -/
def frameInnerScanArgs (opts : ContinuousOptions) : ScanArgs :=
  { formats := opts.formats
    mode := opts.mode
    signal := continuousEffectiveSignal opts
    timeoutMs := 0 }

/-- Run a single-shot scan from an argument record. -/
def runScanArgs (registry : Registry α) (args : ScanArgs) :
    ScanResult α × List String :=
  scan registry args.formats args.mode args.signal args.timeoutMs

/-- Membership in a stable settlement insertion. -/
theorem mem_insertSettle {l : List (Nat × ScanOutcome α)}
    {x a : Nat × ScanOutcome α} :
    a ∈ insertSettle l x ↔ a ∈ l ∨ a = x := by
  induction l with
  | nil => simp [insertSettle]
  | cons y ys ih =>
    by_cases h : y.1 ≤ x.1
    · simp only [insertSettle, if_pos h, List.mem_cons, ih]
      tauto
    · simp only [insertSettle, if_neg h, List.mem_cons]
      tauto

/-- Membership in the fold that builds the settlement order. -/
theorem mem_foldl_insertSettle {l : List (Nat × ScanOutcome α)} :
    ∀ {acc : List (Nat × ScanOutcome α)} {a},
      a ∈ l.foldl insertSettle acc ↔ a ∈ acc ∨ a ∈ l := by
  induction l with
  | nil => intro acc a; simp
  | cons x xs ih =>
    intro acc a
    simp only [List.foldl_cons, ih, mem_insertSettle, List.mem_cons]
    tauto

/-- Every element of the settlement order is one of the settlements. -/
theorem mem_settleOrder {l : List (Nat × ScanOutcome α)}
    {a : Nat × ScanOutcome α} (h : a ∈ settleOrder l) : a ∈ l := by
  have := (mem_foldl_insertSettle (l := l)).mp h
  simpa using this

/-- Stable settlement insertion adds one element. -/
theorem length_insertSettle (l : List (Nat × ScanOutcome α))
    (x : Nat × ScanOutcome α) :
    (insertSettle l x).length = l.length + 1 := by
  induction l with
  | nil => rfl
  | cons y ys ih =>
    by_cases h : y.1 ≤ x.1 <;> simp [insertSettle, h, ih]

/-- The settlement order keeps every settlement: same length. -/
theorem length_settleOrder (l : List (Nat × ScanOutcome α)) :
    (settleOrder l).length = l.length := by
  have aux : ∀ (l : List (Nat × ScanOutcome α))
      (acc : List (Nat × ScanOutcome α)),
      (l.foldl insertSettle acc).length = acc.length + l.length := by
    intro l
    induction l with
    | nil => intro acc; simp
    | cons x xs ih =>
      intro acc
      simp only [List.foldl_cons, ih, length_insertSettle, List.length_cons]
      omega
  simpa [settleOrder] using aux l []

/-- Unfolding of findFirstSuccess over a head settlement. -/
theorem findFirstSuccess_cons (p : Nat × ScanOutcome α)
    (rest : List (Nat × ScanOutcome α)) :
    findFirstSuccess (p :: rest) =
      if p.2.success then some p.2 else findFirstSuccess rest := by
  by_cases h : p.2.success
  · simp [findFirstSuccess, List.find?_cons_of_pos, h]
  · simp [findFirstSuccess, List.find?_cons_of_neg, h]

/-- The first-mode waiter over a complete settlement schedule (one
settlement per promise, no abort): it resolves with the first successful
outcome, stays pending over zero promises, and otherwise rejects with
noResultsError at the last settlement. -/
theorem runFirstWaiter_complete (total : Nat) :
    ∀ (es : List (Nat × ScanOutcome α)) (c : Nat), c + es.length = total →
    runFirstWaiter total (es.map (fun p => ScanEvent.settle p.2)) c =
      (match findFirstSuccess es with
       | some o => ScanResult.ok [o]
       | none => if es.isEmpty then ScanResult.pending
                 else ScanResult.error noResultsError) := by
  intro es
  induction es with
  | nil => intro c h; simp [runFirstWaiter, findFirstSuccess]
  | cons p rest ih =>
    intro c h
    rw [findFirstSuccess_cons]
    by_cases hs : p.2.success
    · simp [runFirstWaiter, hs]
    · cases rest with
      | nil =>
        have : c + 1 = total := by simpa using h
        simp [runFirstWaiter, hs, this, findFirstSuccess]
      | cons q qs =>
        have hne : ¬(c + 1 = total) := by
          simp only [List.length_cons] at h
          omega
        have hrec := ih (c + 1)
          (by simp only [List.length_cons] at h ⊢; omega)
        simp only [List.map_cons, runFirstWaiter, hs, if_neg hne,
          if_false, Bool.false_eq_true] at *
        rw [hrec]
        have : ¬((q :: qs).isEmpty = true) := by simp
        simp [this]

/-- The first-mode waiter over an incomplete settlement schedule with no
success so far neither resolves nor rejects: it is still pending. -/
theorem runFirstWaiter_incomplete (total : Nat) :
    ∀ (es : List (Nat × ScanOutcome α)) (c : Nat), c + es.length < total →
    findFirstSuccess es = none →
    runFirstWaiter total (es.map (fun p => ScanEvent.settle p.2)) c =
      ScanResult.pending := by
  intro es
  induction es with
  | nil => intro c h hn; simp [runFirstWaiter]
  | cons p rest ih =>
    intro c h hn
    rw [findFirstSuccess_cons] at hn
    have hs : ¬(p.2.success = true) := by
      intro hc
      simp [hc] at hn
    have hne : ¬(c + 1 = total) := by
      simp only [List.length_cons] at h
      omega
    simp only [List.map_cons, runFirstWaiter, hs, if_neg hne, if_false,
      Bool.false_eq_true]
    have hn2 : findFirstSuccess rest = none := by
      simpa [hs] using hn
    exact ih (c + 1) (by simp only [List.length_cons] at h ⊢; omega) hn2

/-- A wrapped outcome has success true exactly when its data payload is
non-empty. -/
theorem wrapOutcome_success_iff (f : String)
    (r : Except String (List α)) :
    ((wrapOutcome f r).success = true) ↔ (wrapOutcome f r).data ≠ [] := by
  cases r with
  | ok data => simp [wrapOutcome]
  | error e => simp [wrapOutcome]

/-- Registry key test agrees with registry lookup. -/
theorem mapHas_eq_true_iff {β : Type} (m : List (String × β))
    (k : String) :
    mapHas m k = true ↔ (mapGet m k).isSome := by
  simp [mapHas, mapGet, List.any_eq_true, List.find?_isSome]

/-- When every requested format is registered, scan builds one wrapped
promise per requested format. -/
theorem scanRuns_length (registry : Registry α) (formats : List String)
    (h : ∀ f ∈ formats, mapHas registry f = true) :
    (scanRuns registry formats).length = formats.length := by
  induction formats with
  | nil => rfl
  | cons f fs ih =>
    have hf := h f (by simp)
    have hsome : (mapGet registry f).isSome :=
      (mapHas_eq_true_iff registry f).mp hf
    obtain ⟨p, hp⟩ := Option.isSome_iff_exists.mp hsome
    have ihfs := ih (fun g hg => h g (by simp [hg]))
    simp [scanRuns, List.filterMap_cons, hp] at ihfs ⊢
    exact ihfs

/-- Both scan guards pass when every requested format is registered and
the effective signal is not already aborted: the call dispatches on the
mode with every plugin invoked. -/
theorem scanCore_dispatch (registry : Registry α) (formats : List String)
    (mode : String) (signal : Option AbortEvt)
    (hsupp : ∀ f ∈ formats, mapHas registry f = true)
    (hsig : ∀ q ∈ signal, 0 < q.1) :
    scanCore registry formats mode signal =
      (if mode = "first" then
        (waitForFirst (scanRuns registry formats) signal, formats)
       else if mode = "all" then
        (waitForAll (scanRuns registry formats) signal, formats)
       else if mode = "exhaustive" then
        (waitExhaustive (scanRuns registry formats) signal, formats)
       else (.error (unknownModeError mode), formats)) := by
  have h1 : formats.filter (fun f => !mapHas registry f) = [] := by
    rw [List.filter_eq_nil_iff]
    intro f hf
    simp [hsupp f hf]
  have h2 : signal.any (fun a => a.1 == 0) = false := by
    cases signal with
    | none => rfl
    | some q =>
      have hq := hsig q (by simp)
      simp only [Option.any, beq_eq_false_iff_ne, ne_eq]
      omega
  simp [scanCore, h1, h2]

/-- An unsupported requested format fails the whole call with an error
naming every missing format, before any plugin is invoked, whatever the
mode, the user signal (even one already aborted) and the timeout. -/
theorem scan_unsupported_eq (registry : Registry α) (formats : List String)
    (mode : Option String) (userSignal : Option AbortEvt) (timeoutMs : Nat)
    (h : formats.filter (fun f => !mapHas registry f) ≠ []) :
    scan registry (some formats) mode userSignal timeoutMs =
      (.error (unsupportedFormatsError
        (formats.filter (fun f => !mapHas registry f))), []) := by
  simp [scan, scanCore, h]

/-- Effective signal of a scan call with no user signal: absent for a zero
timeout, otherwise the timeout event with the TimeoutError reason. -/
theorem effectiveSignal_no_user (timeoutMs : Nat) :
    (combineSignals none timeoutMs).orElse (fun _ => (none : Option AbortEvt)) =
      if timeoutMs = 0 then none else some (timeoutMs, timeoutReason) := by
  by_cases h : timeoutMs = 0 <;> simp [combineSignals, h, Option.orElse]

/-- When the signal aborts strictly before every settlement, the
first-mode waiter rejects with the abort reason. -/
theorem waitForFirst_abort_early (outs : List (Nat × ScanOutcome α))
    (ta : Nat) (r : JsError) (h : ∀ p ∈ outs, ta < p.1) :
    waitForFirst outs (some (ta, r)) = ScanResult.error r := by
  unfold waitForFirst
  cases hs : settleOrder outs with
  | nil => simp [mergeAbort, runFirstWaiter]
  | cons p rest =>
    have hp : p ∈ outs := mem_settleOrder (by rw [hs]; simp)
    have hlt : ta < p.1 := h p hp
    cases p with
    | mk t o =>
      simp only at hlt
      simp [mergeAbort, hlt, runFirstWaiter]

/-- Bound for the latest settlement time. -/
theorem maxSettleTime_aux (l : List (Nat × ScanOutcome α)) :
    ∀ acc : Nat, acc ≤ l.foldl (fun a q => max a q.1) acc ∧
      ∀ q ∈ l, q.1 ≤ l.foldl (fun a q => max a q.1) acc := by
  induction l with
  | nil => intro acc; simp
  | cons x xs ih =>
    intro acc
    simp only [List.foldl_cons]
    refine ⟨?_, ?_⟩
    · exact le_trans (le_max_left acc x.1) (ih (max acc x.1)).1
    · intro q hq
      rcases List.mem_cons.mp hq with h1 | h2
      · subst h1
        exact le_trans (le_max_right acc q.1) (ih (max acc q.1)).1
      · exact (ih (max acc x.1)).2 q h2

/-- Every settlement time is at most the latest settlement time. -/
theorem le_maxSettleTime {outs : List (Nat × ScanOutcome α)}
    {p : Nat × ScanOutcome α} (h : p ∈ outs) :
    p.1 ≤ maxSettleTime outs :=
  (maxSettleTime_aux outs 0).2 p h

/-- When the signal aborts no later than the last settlement, the
all-mode waiter rejects with the abort reason. -/
theorem waitForAll_abort (outs : List (Nat × ScanOutcome α))
    (ta : Nat) (r : JsError) (h : ta ≤ maxSettleTime outs) :
    waitForAll outs (some (ta, r)) = ScanResult.error r := by
  simp [waitForAll, h]

/-- With no abort event, merging is just the settlement events. -/
theorem mergeAbort_none (es : List (Nat × ScanOutcome α)) :
    mergeAbort none es = es.map (fun p => ScanEvent.settle p.2) := by
  cases es with
  | nil => rfl
  | cons p rest => cases p; rfl

/-- A scan call with explicit formats and mode, no user signal and a zero
timeout reduces to the scan body with no effective signal. -/
theorem scan_none_zero (registry : Registry α) (formats : List String)
    (mode : String) :
    scan registry (some formats) (some mode) none 0 =
      scanCore registry formats mode none := rfl

/-- C10: a scan call with an empty requested format list, mode "first"
and no (or a never-triggered) signal never settles: the first-mode waiter
over zero promises can reach neither its resolve branch nor its
no-results reject branch, so the returned promise is pending forever. -/
theorem c10_empty_formats_first_pending (registry : Registry α) :
    ((scan registry (some []) (some "first") none 0).1 =
      ScanResult.pending) ∧
    (∀ rs : List (ScanOutcome α), ScanResult.pending ≠ ScanResult.ok rs) ∧
    (∀ e : JsError, (ScanResult.pending : ScanResult α) ≠ ScanResult.error e)
    := by
  refine ⟨rfl, ?_, ?_⟩ <;> intro x h <;> exact ScanResult.noConfusion h

/-- C8: for every registry, requested format list, user signal and
timeout, a scan call with mode "exhaustive" behaves identically to the
same call with mode "all": the exhaustive waiter delegates to the
all-mode waiter unchanged, and the two modes share every other step. -/
theorem c8_exhaustive_eq_all (registry : Registry α)
    (formats : Option (List String)) (userSignal : Option AbortEvt)
    (timeoutMs : Nat) :
    scan registry formats (some "exhaustive") userSignal timeoutMs =
      scan registry formats (some "all") userSignal timeoutMs := rfl

/-- C4: a scan call requesting formats with no registered plugin fails
with an error naming every missing format, with no plugin invoked (the
second component, the invoked-format trace, is empty), for every mode,
every timeout and every user signal, including one already aborted: the
format check precedes the cancellation check. -/
theorem c4_unsupported_formats (registry : Registry α)
    (formats : List String) (mode : Option String)
    (userSignal : Option AbortEvt) (timeoutMs : Nat)
    (h : formats.filter (fun f => !mapHas registry f) ≠ []) :
    (scan registry (some formats) mode userSignal timeoutMs =
      (.error (unsupportedFormatsError
        (formats.filter (fun f => !mapHas registry f))), [])) ∧
    (unsupportedFormatsError
        (formats.filter (fun f => !mapHas registry f))).message =
      "Unsupported formats: " ++ String.intercalate ", "
        (formats.filter (fun f => !mapHas registry f)) :=
  ⟨scan_unsupported_eq registry formats mode userSignal timeoutMs h, rfl⟩

/-- C4 witness: a request naming two unregistered formats, with a user
signal that is already aborted, still fails with the unsupported-formats
error naming both, and no plugin is invoked. -/
theorem c4_witness :
    scan [("qr_code", (⟨1, Except.ok ["x"]⟩ : PluginRun String))]
      (some ["qr_code", "bogus", "nope"]) (some "first")
      (some (0, domAbortError)) 0 =
      (ScanResult.error (unsupportedFormatsError ["bogus", "nope"]), []) := by
  have h := (c4_unsupported_formats
    [("qr_code", (⟨1, Except.ok ["x"]⟩ : PluginRun String))]
    ["qr_code", "bogus", "nope"] (some "first") (some (0, domAbortError)) 0
    (by decide)).1
  rw [h]
  decide

/-- C5 counterexample: with one registered format and the invalid mode
"bogus", scan does fail with the unknown-mode error, but the
invoked-format trace already holds the requested format: the plugin was
invoked before the mode switch threw, contradicting the claim that the
error propagates before any plugin is invoked. -/
theorem c5_counterexample :
    ((scan [("qr_code", (⟨1, Except.ok ["x"]⟩ : PluginRun String))]
        (some ["qr_code"]) (some "bogus") none 0).2 = ["qr_code"]) ∧
    ((scan [("qr_code", (⟨1, Except.ok ["x"]⟩ : PluginRun String))]
        (some ["qr_code"]) (some "bogus") none 0).1 =
      ScanResult.error (unknownModeError "bogus")) ∧
    (["qr_code"] ≠ ([] : List String)) := by
  refine ⟨by decide, by decide, by decide⟩

/-- C5 amended: a scan call whose mode is none of "first", "all" and
"exhaustive" (formats all supported, signal untriggered) fails with an
error naming the invalid mode value, but only after every requested
format plugin has been invoked (the invoked-format trace equals the
request list), because the plugin-invocation loop runs before the mode
switch. -/
theorem c5_unknown_mode_after_invocation (registry : Registry α)
    (formats : List String) (mode : String) (timeoutMs : Nat)
    (hsupp : ∀ f ∈ formats, mapHas registry f = true)
    (hmode : mode ≠ "first" ∧ mode ≠ "all" ∧ mode ≠ "exhaustive") :
    scan registry (some formats) (some mode) none timeoutMs =
      (ScanResult.error (unknownModeError mode), formats) := by
  by_cases ht : timeoutMs = 0
  · subst ht
    rw [scan_none_zero,
      scanCore_dispatch registry formats mode none hsupp (by simp)]
    rw [if_neg hmode.1, if_neg hmode.2.1, if_neg hmode.2.2]
  · have hsig : (combineSignals none timeoutMs).orElse
        (fun _ => (none : Option AbortEvt)) =
        some (timeoutMs, timeoutReason) := by
      rw [effectiveSignal_no_user]
      simp [ht]
    have hpos : ∀ q ∈ (some (timeoutMs, timeoutReason) : Option AbortEvt),
        0 < q.1 := by
      intro q hq
      simp only [Option.mem_def, Option.some_inj] at hq
      subst hq
      exact Nat.pos_of_ne_zero ht
    have hscan : scan registry (some formats) (some mode) none timeoutMs =
        scanCore registry formats mode (some (timeoutMs, timeoutReason)) := by
      simp only [scan, Option.getD_some, hsig]
    rw [hscan, scanCore_dispatch registry formats mode
      (some (timeoutMs, timeoutReason)) hsupp hpos]
    rw [if_neg hmode.1, if_neg hmode.2.1, if_neg hmode.2.2]

/-- C5 witness: concrete instance of the amended claim, with a non-zero
timeout. -/
theorem c5_witness :
    scan [("qr_code", (⟨1, Except.ok ["x"]⟩ : PluginRun String))]
      (some ["qr_code"]) (some "bogus") none 25 =
      (ScanResult.error (unknownModeError "bogus"), ["qr_code"]) := by
  exact c5_unknown_mode_after_invocation
    [("qr_code", (⟨1, Except.ok ["x"]⟩ : PluginRun String))]
    ["qr_code"] "bogus" 25 (by decide) ⟨by decide, by decide, by decide⟩

/-- C9: a scan call whose options omit formats defaults the request to the
fixed list qr_code, pdf417, pdf417_enhanced, mrz (not to the registered
formats); whenever at least one of those four is unregistered, the call
fails with the unsupported-formats error naming the missing ones, with no
plugin invoked, whatever the registered plugins could have scanned. -/
theorem c9_default_formats (registry : Registry α) (mode : Option String)
    (userSignal : Option AbortEvt) (timeoutMs : Nat)
    (hmiss : defaultFormats.filter (fun f => !mapHas registry f) ≠ []) :
    defaultFormats = ["qr_code", "pdf417", "pdf417_enhanced", "mrz"] ∧
    (∀ (m : Option String) (us : Option AbortEvt) (t : Nat),
      scan registry none m us t = scan registry (some defaultFormats) m us t) ∧
    scan registry none mode userSignal timeoutMs =
      (ScanResult.error (unsupportedFormatsError
        (defaultFormats.filter (fun f => !mapHas registry f))), []) := by
  refine ⟨rfl, fun m us t => rfl, ?_⟩
  exact scan_unsupported_eq registry defaultFormats mode userSignal
    timeoutMs hmiss

/-- C9 witness: an instance registering only qr_code rejects a
formats-omitted scan, naming the three missing default formats. -/
theorem c9_witness :
    scan [("qr_code", (⟨1, Except.ok ["x"]⟩ : PluginRun String))]
      none (some "first") none 0 =
      (ScanResult.error (unsupportedFormatsError
        ["pdf417", "pdf417_enhanced", "mrz"]), []) := by
  have h := (c9_default_formats
    [("qr_code", (⟨1, Except.ok ["x"]⟩ : PluginRun String))]
    (some "first") none 0 (by decide)).2.2
  rw [h]
  decide

/-- C1: in "first" mode over supported formats (no signal, or one that
never triggers), scan resolves with a one-element list holding the
earliest outcome in settlement order whose success flag is set; success
holds exactly when the data payload is non-empty; when no settlement
succeeds, scan rejects with noResultsError, and over every proper initial
segment of the settlement order without a success the waiter is still
pending, so that rejection only happens once every plugin promise has
settled. -/
theorem c1_first_mode_earliest_success (registry : Registry α)
    (formats : List String) (hne : formats ≠ [])
    (hsupp : ∀ f ∈ formats, mapHas registry f = true) :
    ((scan registry (some formats) (some "first") none 0).1 =
      match findFirstSuccess (settleOrder (scanRuns registry formats)) with
      | some o => ScanResult.ok [o]
      | none => ScanResult.error noResultsError) ∧
    (∀ p ∈ settleOrder (scanRuns registry formats),
      (p.2.success = true ↔ p.2.data ≠ [])) ∧
    (∀ es₁ es₂, settleOrder (scanRuns registry formats) = es₁ ++ es₂ →
      es₂ ≠ [] → findFirstSuccess es₁ = none →
      runFirstWaiter (scanRuns registry formats).length
        (es₁.map (fun p => ScanEvent.settle p.2)) 0 = ScanResult.pending) := by
  have hlen : (scanRuns registry formats).length = formats.length :=
    scanRuns_length registry formats hsupp
  refine ⟨?_, ?_, ?_⟩
  · rw [scan_none_zero,
      scanCore_dispatch registry formats "first" none hsupp (by simp)]
    rw [if_pos rfl]
    show waitForFirst (scanRuns registry formats) none = _
    unfold waitForFirst
    rw [mergeAbort_none]
    rw [runFirstWaiter_complete (scanRuns registry formats).length
      (settleOrder (scanRuns registry formats)) 0
      (by rw [length_settleOrder]; omega)]
    cases hfs : findFirstSuccess (settleOrder (scanRuns registry formats))
      with
    | some o => rfl
    | none =>
      have hnempty : (settleOrder (scanRuns registry formats)).isEmpty
          = false := by
        rw [List.isEmpty_eq_false_iff_exists_mem]
        apply List.exists_mem_of_length_pos
        rw [length_settleOrder, hlen]
        exact List.length_pos.mpr hne
      simp [hnempty]
  · intro p hp
    have hmem : p ∈ scanRuns registry formats := mem_settleOrder hp
    obtain ⟨f, _, heq⟩ := List.mem_filterMap.mp hmem
    obtain ⟨q, _, hq⟩ := Option.map_eq_some'.mp heq
    have hsnd : p.2 = wrapOutcome f q.result := by
      rw [← hq]
    rw [hsnd]
    exact wrapOutcome_success_iff f q.result
  · intro es₁ es₂ hsplit hne2 hns
    apply runFirstWaiter_incomplete (scanRuns registry formats).length
      es₁ 0 _ hns
    have := length_settleOrder (scanRuns registry formats)
    rw [hsplit, List.length_append] at this
    have h2 : 0 < es₂.length := List.length_pos.mpr hne2
    omega

/-- C1 witness: two plugins both fulfilling with data, the one requested
second settling earlier; first mode resolves with exactly that earlier
outcome. -/
theorem c1_witness :
    (scan [("a", (⟨5, Except.ok ["A"]⟩ : PluginRun String)),
           ("b", ⟨2, Except.ok ["B"]⟩)]
       (some ["a", "b"]) (some "first") none 0).1 =
      ScanResult.ok [{format := "b", success := true, data := ["B"]}] := by
  have h := (c1_first_mode_earliest_success
    [("a", (⟨5, Except.ok ["A"]⟩ : PluginRun String)),
     ("b", ⟨2, Except.ok ["B"]⟩)]
    ["a", "b"] (by decide) (by decide)).1
  rw [h]
  decide

/-- C2 counterexample: two plugins, the one requested first settling
later; all mode returns the outcomes in request order, while the
settlement-ordered sequence of successful outcomes is reversed, so the
claimed settlement ordering does not hold. -/
theorem c2_counterexample :
    ((scan [("a", (⟨5, Except.ok ["A"]⟩ : PluginRun String)),
            ("b", ⟨2, Except.ok ["B"]⟩)]
        (some ["a", "b"]) (some "all") none 0).1 =
      ScanResult.ok [wrapOutcome "a" (Except.ok ["A"]),
        wrapOutcome "b" (Except.ok ["B"])]) ∧
    (((settleOrder (scanRuns
          [("a", (⟨5, Except.ok ["A"]⟩ : PluginRun String)),
           ("b", ⟨2, Except.ok ["B"]⟩)] ["a", "b"])).map Prod.snd).filter
        (fun o => o.success) =
      [wrapOutcome "b" (Except.ok ["B"]), wrapOutcome "a" (Except.ok ["A"])])
    ∧
    (ScanResult.ok (α := String)
        [wrapOutcome "a" (Except.ok ["A"]), wrapOutcome "b" (Except.ok ["B"])]
      ≠ ScanResult.ok
        [wrapOutcome "b" (Except.ok ["B"]), wrapOutcome "a" (Except.ok ["A"])])
    := by
  refine ⟨by decide, by decide, by decide⟩

/-- C2 amended: in "all" mode over supported formats with an untriggered
signal, scan waits for every plugin to settle and returns exactly the
outcomes with success true (non-empty data), in format-request order (the
order Promise.allSettled preserves), not in settlement order; an empty
sequence is a valid non-error result. -/
theorem c2_all_mode_request_order (registry : Registry α)
    (formats : List String)
    (hsupp : ∀ f ∈ formats, mapHas registry f = true) :
    (scan registry (some formats) (some "all") none 0).1 =
      ScanResult.ok
        (((scanRuns registry formats).map Prod.snd).filter
          (fun o => o.success)) := by
  rw [scan_none_zero,
    scanCore_dispatch registry formats "all" none hsupp (by simp)]
  rw [if_neg (by decide), if_pos rfl]
  rfl

/-- C2 witness: a single plugin that rejects; all mode resolves with the
empty sequence instead of rejecting. -/
theorem c2_witness :
    (scan [("a", (⟨1, Except.error "boom"⟩ : PluginRun String))]
        (some ["a"]) (some "all") none 0).1 = ScanResult.ok [] := by
  have h := c2_all_mode_request_order
    [("a", (⟨1, Except.error "boom"⟩ : PluginRun String))] ["a"] (by decide)
  rw [h]
  decide

/-- C3 counterexample: with one supported plugin settling after the
deadline and timeoutMs 50, scan rejects with the TimeoutError-named
reason installed by AbortSignal.timeout, whose code property is not
SCAN_TIMEOUT, contradicting the claimed code. -/
theorem c3_counterexample :
    ((scan [("a", (⟨100, Except.ok ["A"]⟩ : PluginRun String))]
        (some ["a"]) (some "first") none 50).1 =
      ScanResult.error timeoutReason) ∧
    (timeoutReason.code ≠ some "SCAN_TIMEOUT") ∧
    timeoutReason.name = "TimeoutError" := by
  refine ⟨by decide, by decide, rfl⟩

/-- C3 amended: with timeoutMs positive, no user signal, a non-empty
supported format list, a valid mode and every plugin settling strictly
after the deadline, the deadline triggers the effective signal with the
distinct TimeoutError-named reason of AbortSignal.timeout (which carries
no code property, in particular not SCAN_TIMEOUT), scan rejects with that
reason, _isTimeoutError classifies it as a timeout, and the SCAN_TIMEOUT
code exists only on the reason of the separate _createTimeoutController
helper, which scan does not use. -/
theorem c3_timeout_rejects (registry : Registry α) (formats : List String)
    (mode : String) (timeoutMs : Nat)
    (ht : 0 < timeoutMs) (hne : formats ≠ [])
    (hsupp : ∀ f ∈ formats, mapHas registry f = true)
    (hmode : mode = "first" ∨ mode = "all" ∨ mode = "exhaustive")
    (hslow : ∀ p ∈ scanRuns registry formats, timeoutMs < p.1) :
    ((scan registry (some formats) (some mode) none timeoutMs).1 =
      ScanResult.error timeoutReason) ∧
    timeoutReason.name = "TimeoutError" ∧
    timeoutReason.code = none ∧
    isTimeoutError timeoutReason
      {aborted := true, reason := some timeoutReason} = true ∧
    (createTimeoutController none timeoutMs).map (fun q => q.2.code) =
      some (some "SCAN_TIMEOUT") := by
  have htz : timeoutMs ≠ 0 := Nat.pos_iff_ne_zero.mp ht
  have hsig : (combineSignals none timeoutMs).orElse
      (fun _ => (none : Option AbortEvt)) =
      some (timeoutMs, timeoutReason) := by
    rw [effectiveSignal_no_user]
    simp [htz]
  have hpos : ∀ q ∈ (some (timeoutMs, timeoutReason) : Option AbortEvt),
      0 < q.1 := by
    intro q hq
    simp only [Option.mem_def, Option.some_inj] at hq
    subst hq
    exact ht
  have hscan : scan registry (some formats) (some mode) none timeoutMs =
      scanCore registry formats mode (some (timeoutMs, timeoutReason)) := by
    simp only [scan, Option.getD_some, hsig]
  have hd := scanCore_dispatch registry formats mode
    (some (timeoutMs, timeoutReason)) hsupp hpos
  have hAllAbort : waitForAll (scanRuns registry formats)
      (some (timeoutMs, timeoutReason)) = ScanResult.error timeoutReason := by
    apply waitForAll_abort
    have hlen : 0 < (scanRuns registry formats).length := by
      rw [scanRuns_length registry formats hsupp]
      exact List.length_pos.mpr hne
    obtain ⟨p, hp⟩ := List.exists_mem_of_length_pos hlen
    exact le_trans (le_of_lt (hslow p hp)) (le_maxSettleTime hp)
  refine ⟨?_, rfl, rfl, by decide, ?_⟩
  · rw [hscan, hd]
    rcases hmode with hm | hm | hm <;> subst hm
    · rw [if_pos rfl]
      exact waitForFirst_abort_early (scanRuns registry formats)
        timeoutMs timeoutReason hslow
    · rw [if_neg (by decide), if_pos rfl]
      exact hAllAbort
    · rw [if_neg (by decide), if_neg (by decide), if_pos rfl]
      exact hAllAbort
  · simp [createTimeoutController, htz, scanTimeoutError]

/-- C3 witness: concrete instance of the amended claim in "all" mode. -/
theorem c3_witness :
    (scan [("a", (⟨100, Except.ok ["A"]⟩ : PluginRun String))]
        (some ["a"]) (some "all") none 50).1 =
      ScanResult.error timeoutReason := by
  exact (c3_timeout_rejects
    [("a", (⟨100, Except.ok ["A"]⟩ : PluginRun String))] ["a"] "all" 50
    (by decide) (by decide) (by decide) (Or.inr (Or.inl rfl))
    (by decide)).1

/-- C6 counterexample: one polling iteration whose inner scan fails with a
plain Error while the effective signal has aborted with the timeout
marker by the time the catch runs: the loop ends with a triggered signal
carrying the timeout marker, yet the enriched error carries the reason
"user cancellation", because the classification looks at the caught error
rather than at the signal trigger. -/
theorem c6_counterexample :
    (scanContinuousPolling (α := String)
      [{ startState := signalIdle
         scanOutcome := Except.error {message := "boom"}
         catchState := {aborted := true, reason := some timeoutReason} }]
      {aborted := true, reason := some timeoutReason} =
      LoopResult.rejected (createScanError {message := "boom"}
        { customMessage := some "Continuous polling scan aborted"
          attemptCount := some 1
          reason := some "user cancellation"
          scanMethod := "polling" })) ∧
    ((createScanError {message := "boom"}
        { customMessage := some "Continuous polling scan aborted"
          attemptCount := some 1
          reason := some "user cancellation"
          scanMethod := "polling" }).reason = some "user cancellation") ∧
    ((({aborted := true, reason := some timeoutReason} : SignalState).reason.map
        JsError.name) = some "TimeoutError") ∧
    ((some "user cancellation" : Option String) ≠ some "timeout") := by
  refine ⟨by decide, by decide, by decide, by decide⟩

/-- C6 amended: in both continuous strategies, a per-attempt failure with
an untriggered effective signal that is not AbortError-named is retried
(the loop continues) and never ends the loop; a failure caught while the
signal is triggered rejects with an enriched error carrying the attempt
or frame count and the strategy name, whose reason is "timeout" exactly
when _isTimeoutError classifies the caught error as a timeout (the error
is named TimeoutError, or is named AbortError while the signal reason is
named TimeoutError) and "user cancellation" otherwise; in the polling
strategy a signal observed as triggered at the while head ends the loop
with a SCAN_CANCELLED enriched error that has no reason field; in the
frame strategy a signal observed as triggered at the head throwIfAborted
rejects with the signal reason classified the same way, at the
un-incremented frame count. -/
theorem c6_retry_and_classification (s : ContinuousStep α)
    (rest : List (ContinuousStep α)) (finalState : SignalState)
    (n : Nat) (e : JsError) :
    (s.startState.aborted = false → s.scanOutcome = Except.error e →
      e.name ≠ "AbortError" → s.catchState.aborted = false →
      scanContinuousPollingLoop finalState (s :: rest) n =
        scanContinuousPollingLoop finalState rest (n + 1)) ∧
    (s.startState.aborted = false → s.scanOutcome = Except.error e →
      e.name ≠ "AbortError" → s.catchState.aborted = false →
      scanContinuousFrameLoop (s :: rest) n =
        scanContinuousFrameLoop rest (n + 1)) ∧
    (s.startState.aborted = false → s.scanOutcome = Except.error e →
      s.catchState.aborted = true →
      scanContinuousPollingLoop finalState (s :: rest) n =
        LoopResult.rejected (createScanError e
          { customMessage := some "Continuous polling scan aborted"
            attemptCount := some (n + 1)
            reason := some (if isTimeoutError e s.catchState then "timeout"
              else "user cancellation")
            scanMethod := "polling" })) ∧
    (s.startState.aborted = false → s.scanOutcome = Except.error e →
      s.catchState.aborted = true →
      scanContinuousFrameLoop (s :: rest) n =
        LoopResult.rejected (createScanError e
          { customMessage := some "Continuous scan aborted"
            frameCount := some (n + 1)
            reason := some (if isTimeoutError e s.catchState then "timeout"
              else "user cancellation")
            scanMethod := "frame-callback" })) ∧
    (s.startState.aborted = true →
      scanContinuousPollingLoop finalState (s :: rest) n =
        LoopResult.rejected (pollAbortExit n) ∧
      (pollAbortExit n).reason = none ∧
      (pollAbortExit n).code = "SCAN_CANCELLED" ∧
      (pollAbortExit n).attemptCount = some n ∧
      (pollAbortExit n).scanMethod = "polling") ∧
    (s.startState.aborted = true →
      scanContinuousFrameLoop (s :: rest) n =
        LoopResult.rejected (createScanError
          (s.startState.reason.getD domAbortError)
          { customMessage := some "Continuous scan aborted"
            frameCount := some n
            reason := some (if isTimeoutError
                (s.startState.reason.getD domAbortError) s.startState
              then "timeout" else "user cancellation")
            scanMethod := "frame-callback" })) := by
  refine ⟨?_, ?_, ?_, ?_, ?_, ?_⟩
  · intro h1 h2 h3 h4
    have hb : (e.name == "AbortError") = false := beq_eq_false_iff_ne.mpr h3
    simp [scanContinuousPollingLoop, h1, h2, h4, hb]
  · intro h1 h2 h3 h4
    have hb : (e.name == "AbortError") = false := beq_eq_false_iff_ne.mpr h3
    simp [scanContinuousFrameLoop, h1, h2, h4, hb]
  · intro h1 h2 h3
    simp [scanContinuousPollingLoop, h1, h2, h3]
  · intro h1 h2 h3
    simp [scanContinuousFrameLoop, h1, h2, h3]
  · intro h1
    exact ⟨by simp [scanContinuousPollingLoop, h1], rfl, rfl, rfl, rfl⟩
  · intro h1
    simp [scanContinuousFrameLoop, h1]

/-- C6 witness: a polling run whose first attempt fails unexpectedly and
is retried, whose second attempt fails with an AbortError while the
signal aborted without a timeout marker, rejecting with reason
"user cancellation" and attempt count 2; and a frame run that observes a
timeout-marked abort at the head of frame 8, rejecting with reason
"timeout" at frame count 7. -/
theorem c6_witness :
    (scanContinuousPollingLoop (α := String) signalIdle
      [⟨signalIdle, Except.error {message := "boom"}, signalIdle⟩,
       ⟨signalIdle, Except.error {name := "AbortError", message := "gone"},
        {aborted := true, reason := some domAbortError}⟩] 0 =
      LoopResult.rejected (createScanError
        {name := "AbortError", message := "gone"}
        { customMessage := some "Continuous polling scan aborted"
          attemptCount := some 2
          reason := some "user cancellation"
          scanMethod := "polling" })) ∧
    (scanContinuousFrameLoop (α := String)
      [⟨{aborted := true, reason := some timeoutReason}, Except.ok [],
        signalIdle⟩] 7 =
      LoopResult.rejected (createScanError timeoutReason
        { customMessage := some "Continuous scan aborted"
          frameCount := some 7
          reason := some "timeout"
          scanMethod := "frame-callback" })) := by
  constructor
  · have h1 := (c6_retry_and_classification (α := String)
      ⟨signalIdle, Except.error {message := "boom"}, signalIdle⟩
      [⟨signalIdle, Except.error {name := "AbortError", message := "gone"},
        {aborted := true, reason := some domAbortError}⟩]
      signalIdle 0 {message := "boom"}).1 rfl rfl (by decide) rfl
    have h2 := (c6_retry_and_classification (α := String)
      ⟨signalIdle, Except.error {name := "AbortError", message := "gone"},
        {aborted := true, reason := some domAbortError}⟩
      [] signalIdle 1
      {name := "AbortError", message := "gone"}).2.2.1 rfl rfl rfl
    rw [h1, h2]
    decide
  · have h3 := (c6_retry_and_classification (α := String)
      ⟨{aborted := true, reason := some timeoutReason}, Except.ok [],
        signalIdle⟩
      [] signalIdle 7 domAbortError).2.2.2.2.2 rfl
    rw [h3]
    decide

/-- C7 counterexample: a frame-synchronized continuous scan whose caller
passes mode "all" dispatches its per-frame single-shot scan with mode
"all", not with the claimed fixed mode "first". -/
theorem c7_counterexample :
    (frameInnerScanArgs {mode := some "all"}).mode = some "all" ∧
    ((some "all" : Option String) ≠ some "first") := by
  refine ⟨rfl, by decide⟩

/-- C7 amended: each per-frame dispatch of the frame-synchronized
strategy forwards the caller mode unchanged (the inner scan defaults to
"first" only when the caller omitted the mode), runs with timeoutMs 0,
and passes the outer effective cancellation signal, which the inner scan
re-uses as its own effective signal because combining a signal with a
zero timeout returns that signal. -/
theorem c7_frame_inner_args (opts : ContinuousOptions) :
    (frameInnerScanArgs opts).mode = opts.mode ∧
    (frameInnerScanArgs opts).timeoutMs = 0 ∧
    (frameInnerScanArgs opts).formats = opts.formats ∧
    (frameInnerScanArgs opts).signal = continuousEffectiveSignal opts ∧
    (∀ s : Option AbortEvt, (combineSignals s 0).orElse (fun _ => s) = s) ∧
    (∀ registry : Registry α, opts.mode = none →
      runScanArgs registry (frameInnerScanArgs opts) =
        scan registry opts.formats (some "first")
          (continuousEffectiveSignal opts) 0) := by
  refine ⟨rfl, rfl, rfl, rfl, ?_, ?_⟩
  · intro s
    cases s <;> simp [combineSignals, Option.orElse]
  · intro registry hm
    simp [runScanArgs, frameInnerScanArgs, scan, hm]

/-- C7 witness: with the mode omitted and a positive outer timeout, the
per-frame dispatch is the single-shot scan with mode defaulted to
"first", timeoutMs 0 and the outer effective signal. -/
theorem c7_witness :
    runScanArgs [("a", (⟨1, Except.ok ["A"]⟩ : PluginRun String))]
      (frameInnerScanArgs {timeoutMs := 5}) =
      scan [("a", (⟨1, Except.ok ["A"]⟩ : PluginRun String))] none
        (some "first") (continuousEffectiveSignal {timeoutMs := 5}) 0 := by
  exact (c7_frame_inner_args (α := String)
    {timeoutMs := 5}).2.2.2.2.2 [("a", ⟨1, Except.ok ["A"]⟩)] rfl

end OpticalScanner
